import Mathlib

/-!
Shallow embedding of `TaskMutex` from
`src/include/Gaffer/Private/IECorePreview/TaskMutex.h`.

The mutex couples an internal reader/writer lock (`tbb::spin_rw_mutex`,
called `L` in the spec), a small spin mutex `m_executionStateMutex`
(`Msx`) and a shared-ownership slot `m_executionState` (`E`).  All
operations flow through the `ScopedLock` handle, whose fields are
`m_lock` (the internal lock's scoped guard), `m_mutex` (back-pointer),
`m_writer` and `m_recursive`.

The embedding makes each operation a pure function over explicit state.
Outcomes that belong to the external TBB runtime (whether
`m_lock.try_acquire` succeeds, whether `upgrade_to_writer` kept read
access) are oracle parameters, since they depend on other threads.
Every operation also returns the list of observable events it performs,
in program order, so that ordering claims (which accesses to `E` happen
under `Msx`, whether spawn and wait are separate calls, whether the
internal lock is touched) can be stated about traces.
-/

deriving instance DecidableEq for Except

namespace IECorePreview

/-- Thread identifier (`std::thread::id`). -/
abbrev ThreadId := Nat

/-- State of the `ScopedLock`'s internal guard `m_lock`
(`InternalMutex::scoped_lock`): holding nothing, a read lock,
or a write lock on the internal reader/writer mutex. -/
inductive GuardState where
  | idle
  | reading
  | writing
deriving DecidableEq, Repr

/-- Observable events emitted by the operations, in program order. -/
inductive Event where
  /-- Call to the internal lock's try-acquire, with the requested mode
  and whether it succeeded. -/
  | tryAcquireInternal (write : Bool) (success : Bool)
  /-- Release of the internal reader/writer lock. -/
  | releaseInternal
  /-- In-place upgrade request on the internal reader/writer lock. -/
  | upgradeInternal
  /-- Acquisition of the execution-state mutex `Msx`. -/
  | msxAcquire
  /-- Release of the execution-state mutex `Msx`. -/
  | msxRelease
  /-- A read of the member `m_executionState` (the slot `E`). -/
  | readE
  /-- A write of the member `m_executionState` (the slot `E`). -/
  | writeE
  /-- Invocation of the user-supplied work notifier with the value of
  `workAvailable`. -/
  | notify (workAvailable : Bool)
  /-- The calling thread enters the execution state's arena. -/
  | arenaEnter
  /-- Event for `taskGroup.run(f)`: the closure is spawned into the task group. -/
  | spawnTask
  /-- Event for `taskGroup.wait()`: wait for the task group to empty. -/
  | waitGroup
  /-- The calling thread leaves the arena. -/
  | arenaExit
deriving DecidableEq, Repr

/-- Model of `ArenaObserver`: tracks the identities of the threads currently
inside the observed arena.  `m_threadIdSet` models the
`boost::container::flat_set<std::thread::id>`; set semantics, so an
insert of a present element is a no-op. -/
structure ArenaObserver where
  m_threadIdSet : List ThreadId
deriving DecidableEq, Repr

/-- Model of `ArenaObserver::containsThisThread`, called by thread `tid`:
membership lookup in `m_threadIdSet` (taken under `Mo`). -/
def ArenaObserver.containsThisThread (tid : ThreadId) (o : ArenaObserver) : Bool :=
  o.m_threadIdSet.contains tid

/-- Model of `ArenaObserver::on_scheduler_entry` for thread `tid`: insert the
thread id into the set (a `flat_set` insert ignores a present key). -/
def ArenaObserver.onSchedulerEntry (tid : ThreadId) (o : ArenaObserver) : ArenaObserver :=
  if o.m_threadIdSet.contains tid then o else ⟨tid :: o.m_threadIdSet⟩

/-- Model of `ArenaObserver::on_scheduler_exit` for thread `tid`: erase the
thread id from the set. -/
def ArenaObserver.onSchedulerExit (tid : ThreadId) (o : ArenaObserver) : ArenaObserver :=
  ⟨o.m_threadIdSet.erase tid⟩

/-- A scheduler callback delivered to the observer: `(true, tid)` is an
entry of thread `tid`, `(false, tid)` an exit. -/
def ArenaObserver.applyCallback (o : ArenaObserver) (c : Bool × ThreadId) : ArenaObserver :=
  if c.1 then o.onSchedulerEntry c.2 else o.onSchedulerExit c.2

/-- The observer state after a sequence of scheduler callbacks, starting
from the freshly constructed (empty) observer. -/
def ArenaObserver.afterCallbacks (cs : List (Bool × ThreadId)) : ArenaObserver :=
  cs.foldl ArenaObserver.applyCallback ⟨[]⟩

/-- Model of `ExecutionState`: the transient bundle published on the mutex while
a writer is inside `execute`.  The arena itself carries no state we
need beyond its observer; the task group is the list of pending
spawned closures, each modelled by its outcome. -/
structure ExecutionState (ε : Type) where
  taskGroup : List (Except ε Unit)
  arenaObserver : ArenaObserver
deriving DecidableEq, Repr

/-- A freshly constructed `ExecutionState`: empty task group, observer
registered on the new arena with no thread inside yet. -/
def ExecutionState.fresh (ε : Type) : ExecutionState ε :=
  { taskGroup := [], arenaObserver := ⟨[]⟩ }

/-- The mutable state of a `TaskMutex` owned by this file's code: the
execution-state slot `m_executionState` (`E`).  The internal
reader/writer lock and the spin mutex `Msx` are external TBB objects;
their interactions appear as oracle parameters and trace events. -/
structure TaskMutexState (ε : Type) where
  m_executionState : Option (ExecutionState ε)
deriving DecidableEq, Repr

/-- The fields of a `ScopedLock` handle.  `m_mutex` is the nullable
back-pointer to the owning mutex, modelled as presence. -/
structure ScopedLockState where
  m_lock : GuardState
  m_mutex : Bool
  m_writer : Bool
  m_recursive : Bool
deriving DecidableEq, Repr

/-- A default-constructed `ScopedLock`: no guard, null back-pointer,
`m_writer = false`, `m_recursive = false`. -/
def ScopedLockState.initial : ScopedLockState :=
  { m_lock := .idle, m_mutex := false, m_writer := false, m_recursive := false }

/-- Result of `acquireOr` (also used for `tryAcquire`): return value,
updated handle, updated mutex state, and the trace of events. -/
structure AcquireOrResult (ε : Type) where
  result : Bool
  lock : ScopedLockState
  mutex : TaskMutexState ε
  trace : List Event
deriving DecidableEq, Repr

/-- Model of `ScopedLock::acquireOr( mutex, write, workNotifier )`.

`tryOutcome` is the oracle for `m_lock.try_acquire( mutex.m_mutex,
write )`, which depends on what other threads hold.  `tid` is the
calling thread.  Control flow follows the source:

1. on a successful try, record ownership (`m_recursive = false`,
   `m_writer = write`) and return true;
2. otherwise take `Msx`; if `E` exists and its observer contains this
   thread, grant a recursive lock (`m_recursive = true`,
   `m_writer = false`) and return true;
3. compute `workAvailable = (E != none)` and call the notifier; if it
   declines or there is no work, return false;
4. otherwise copy the shared reference, release `Msx`, enter the arena
   and wait for the task group to drain, then return false.

The `Msx` guard is a scoped lock, so each return from inside its scope
emits `msxRelease`.  Draining executes the queued tasks on the shared
`ExecutionState` object, which the slot still references. -/
def acquireOr {ε : Type} (tryOutcome : Bool) (tid : ThreadId)
    (mutex : TaskMutexState ε) (lock : ScopedLockState) (write : Bool)
    (workNotifier : Bool → Bool) : AcquireOrResult ε :=
  if tryOutcome then
    { result := true
      lock := { m_lock := (if write then .writing else .reading),
                m_mutex := true, m_writer := write, m_recursive := false }
      mutex := mutex
      trace := [.tryAcquireInternal write true] }
  else
    match mutex.m_executionState with
    | some es =>
      if es.arenaObserver.containsThisThread tid then
        { result := true
          lock := { lock with m_mutex := true, m_writer := false, m_recursive := true }
          mutex := mutex
          trace := [.tryAcquireInternal write false, .msxAcquire, .readE, .msxRelease] }
      else if !workNotifier true then
        { result := false
          lock := lock
          mutex := mutex
          trace := [.tryAcquireInternal write false, .msxAcquire, .readE, .readE,
            .notify true, .msxRelease] }
      else
        let drained : ExecutionState ε :=
          { taskGroup := [],
            arenaObserver := (es.arenaObserver.onSchedulerEntry tid).onSchedulerExit tid }
        { result := false
          lock := lock
          mutex := { m_executionState := some drained }
          trace := [.tryAcquireInternal write false, .msxAcquire, .readE, .readE,
            .notify true, .readE, .msxRelease, .arenaEnter, .waitGroup, .arenaExit] }
    | none =>
      let _ := workNotifier false
      { result := false
        lock := lock
        mutex := mutex
        trace := [.tryAcquireInternal write false, .msxAcquire, .readE, .readE,
          .notify false, .msxRelease] }

/-- Model of `ScopedLock::tryAcquire( mutex, write )`: `acquireOr` with a
notifier that always declines work. -/
def tryAcquire {ε : Type} (tryOutcome : Bool) (tid : ThreadId)
    (mutex : TaskMutexState ε) (lock : ScopedLockState) (write : Bool) :
    AcquireOrResult ε :=
  acquireOr tryOutcome tid mutex lock write (fun _ => false)

/-- Model of `ScopedLock::acquire( mutex, write, acceptWork )`: loop on
`acquireOr` with the constant notifier `acceptWork`, pausing between
attempts, until an attempt returns true.  The oracle list gives the
try-acquire outcome of each failed-so-far iteration; when it is
exhausted the final iteration's try succeeds (the loop terminates only
by acquiring).  States are threaded through the iterations and the
traces concatenate in order. -/
def acquire {ε : Type} : List Bool → ThreadId → TaskMutexState ε → ScopedLockState →
    Bool → Bool → AcquireOrResult ε
  | [], tid, mutex, lock, write, acceptWork =>
    acquireOr true tid mutex lock write (fun _ => acceptWork)
  | t :: ts, tid, mutex, lock, write, acceptWork =>
    let r := acquireOr t tid mutex lock write (fun _ => acceptWork)
    if r.result then r
    else
      let rest := acquire ts tid r.mutex r.lock write acceptWork
      { rest with trace := r.trace ++ rest.trace }

/-- Result of `execute`: the propagated outcome of the closure, the
updated handle and mutex states, the final contents of the
`ExecutionState` object it created (still reachable through any
shared reference), and the trace. -/
structure ExecuteResult (ε : Type) where
  result : Except ε Unit
  lock : ScopedLockState
  mutex : TaskMutexState ε
  esFinal : ExecutionState ε
  trace : List Event
deriving DecidableEq, Repr

/-- Model of `ScopedLock::execute( f )` called by thread `tid`, with the
closure abstracted by its outcome `f`.

Following the source: under `Msx` the slot is read (by the assertion)
and a fresh `ExecutionState` is installed, then `Msx` is released.  The
member `m_executionState` is then re-read (outside `Msx`) to enter its
arena; inside the arena the closure is spawned with `taskGroup.run` and
awaited with a separate `taskGroup.wait`, each preceded by another
re-read of the member.  `wait` executes the task and, if the closure
raised, rethrows after the group has drained; the unwinding leaves the
arena and skips the two final statements, so the slot keeps pointing at
the drained `ExecutionState`.  On normal return, `Msx` is re-acquired
and the slot is cleared to none. -/
def execute {ε : Type} (tid : ThreadId) (mutex : TaskMutexState ε)
    (lock : ScopedLockState) (f : Except ε Unit) : ExecuteResult ε :=
  let obsInside := (ExecutionState.fresh ε).arenaObserver.onSchedulerEntry tid
  let esFinal : ExecutionState ε :=
    { taskGroup := [], arenaObserver := obsInside.onSchedulerExit tid }
  let prefixTrace : List Event :=
    [.msxAcquire, .readE, .writeE, .msxRelease,
     .readE, .arenaEnter, .readE, .spawnTask, .readE, .waitGroup, .arenaExit]
  match f with
  | .error e =>
    { result := .error e
      lock := lock
      mutex := { m_executionState := some esFinal }
      esFinal := esFinal
      trace := prefixTrace }
  | .ok _ =>
    { result := .ok ()
      lock := lock
      mutex := { m_executionState := none }
      esFinal := esFinal
      trace := prefixTrace ++ [.msxAcquire, .writeE, .msxRelease] }

/-- Model of `ScopedLock::release()`: if the lock is not recursive, release the
internal lock through the guard; in all cases null the back-pointer. -/
def release (lock : ScopedLockState) : ScopedLockState × List Event :=
  if lock.m_recursive then
    ({ lock with m_mutex := false }, [])
  else
    ({ lock with m_lock := .idle, m_mutex := false }, [.releaseInternal])

/-- Model of `ScopedLock::~ScopedLock()`: call `release()` if the back-pointer
is set; then the guard's own destructor releases the internal lock if
it is still holding it. -/
def scopedLockDtor (lock : ScopedLockState) : ScopedLockState × List Event :=
  let step := if lock.m_mutex then release lock else (lock, [])
  if step.1.m_lock = .idle then step
  else ({ step.1 with m_lock := .idle }, step.2 ++ [.releaseInternal])

/-- Model of `ScopedLock::upgradeToWriter()`.  `upgradeOutcome` is the oracle
for the internal lock's `upgrade_to_writer()`: true exactly when the
upgrade happened without the read lock ever being dropped.  Either way
the guard ends up holding the write lock, and the handle records
`m_writer = true`. -/
def upgradeToWriter (upgradeOutcome : Bool) (lock : ScopedLockState) :
    Bool × ScopedLockState × List Event :=
  (upgradeOutcome,
   { lock with m_writer := true, m_lock := .writing },
   [.upgradeInternal])

/-- Checks a trace against the locking discipline claimed for `Msx`:
scanning left to right while tracking whether `Msx` is held (initial
state `held`), every `readE` and `writeE` must occur while it is held. -/
def msxRespected : List Event → Bool → Bool
  | [], _ => true
  | .msxAcquire :: rest, _ => msxRespected rest true
  | .msxRelease :: rest, _ => msxRespected rest false
  | .readE :: rest, held => held && msxRespected rest held
  | .writeE :: rest, held => held && msxRespected rest held
  | _ :: rest, held => msxRespected rest held

/-- Like `msxRespected`, but only checks mutations (`writeE`) of the
slot against the discipline; reads are unconstrained. -/
def msxWritesRespected : List Event → Bool → Bool
  | [], _ => true
  | .msxAcquire :: rest, _ => msxWritesRespected rest true
  | .msxRelease :: rest, _ => msxWritesRespected rest false
  | .writeE :: rest, held => held && msxWritesRespected rest held
  | _ :: rest, held => msxWritesRespected rest held

/-- Whether an event is a call to the internal lock's try-acquire. -/
def Event.isInternalTry : Event → Bool
  | .tryAcquireInternal _ _ => true
  | _ => false

/-- Whether `Msx` is held after processing a trace, starting from
holding state `held`. -/
def msxHeldAfter : List Event → Bool → Bool
  | [], held => held
  | .msxAcquire :: rest, _ => msxHeldAfter rest true
  | .msxRelease :: rest, _ => msxHeldAfter rest false
  | _ :: rest, held => msxHeldAfter rest held

/-- A scheduler callback keeps the thread-id set duplicate-free. -/
theorem ArenaObserver.nodup_applyCallback (o : ArenaObserver) (c : Bool × ThreadId)
    (h : o.m_threadIdSet.Nodup) : (o.applyCallback c).m_threadIdSet.Nodup := by
  unfold ArenaObserver.applyCallback ArenaObserver.onSchedulerEntry ArenaObserver.onSchedulerExit
  split
  · split
    · exact h
    · rename_i hc
      exact List.nodup_cons.mpr ⟨by simpa using hc, h⟩
  · exact h.erase c.2

/-- Any callback sequence from the fresh observer yields a
duplicate-free thread-id set. -/
theorem ArenaObserver.nodup_afterCallbacks (cs : List (Bool × ThreadId)) :
    (ArenaObserver.afterCallbacks cs).m_threadIdSet.Nodup := by
  have main : ∀ (cs : List (Bool × ThreadId)) (o : ArenaObserver),
      o.m_threadIdSet.Nodup →
      (cs.foldl ArenaObserver.applyCallback o).m_threadIdSet.Nodup := by
    intro cs
    induction cs with
    | nil => intro o h; exact h
    | cons c cs ih => intro o h; exact ih _ (o.nodup_applyCallback c h)
  exact main cs ⟨[]⟩ List.nodup_nil

/-- Claim C9: the `ArenaObserver` thread-id set never contains a
duplicate thread id under the entry/exit callbacks, and
`containsThisThread` (the spec's `containsSelf`) returns exactly
whether the calling thread's id is a member of the set. -/
theorem arenaObserver_nodup_and_containsSelf :
    (∀ cs : List (Bool × ThreadId),
      (ArenaObserver.afterCallbacks cs).m_threadIdSet.Nodup) ∧
    (∀ (tid : ThreadId) (o : ArenaObserver),
      o.containsThisThread tid = true ↔ tid ∈ o.m_threadIdSet) := by
  refine ⟨ArenaObserver.nodup_afterCallbacks, ?_⟩
  intro tid o
  simp [ArenaObserver.containsThisThread]

/-- Claim C7: with the lock held in any mode, `release` performs no
operation on the internal lock when recursive and releases it
otherwise, in both cases forgets the mutex back-pointer, and the
subsequent destruction of the released handle never touches the
internal lock.  The hypothesis `hinv` is the reachability invariant
that a recursive grant never took the internal guard. -/
theorem release_and_dtor_spec (lock : ScopedLockState)
    (hheld : lock.m_mutex = true)
    (hinv : lock.m_recursive = true → lock.m_lock = GuardState.idle) :
    ((release lock).2 = if lock.m_recursive then [] else [Event.releaseInternal]) ∧
    (release lock).1.m_mutex = false ∧
    scopedLockDtor (release lock).1 = ((release lock).1, []) := by
  cases hrec : lock.m_recursive
  · simp [release, scopedLockDtor, hrec]
  · simp [release, scopedLockDtor, hrec, hinv hrec]

/-- Witness for C7 at a concrete non-recursive writer lock. -/
theorem release_and_dtor_spec_witness :
    (ScopedLockState.mk GuardState.writing true true false).m_mutex = true ∧
    (((release (ScopedLockState.mk GuardState.writing true true false)).2 =
        if (ScopedLockState.mk GuardState.writing true true false).m_recursive then []
        else [Event.releaseInternal]) ∧
      (release (ScopedLockState.mk GuardState.writing true true false)).1.m_mutex = false ∧
      scopedLockDtor (release (ScopedLockState.mk GuardState.writing true true false)).1 =
        ((release (ScopedLockState.mk GuardState.writing true true false)).1, [])) :=
  ⟨rfl, release_and_dtor_spec (ScopedLockState.mk GuardState.writing true true false)
    rfl (by decide)⟩

/-- Claim C8: `upgradeToWriter` on a non-recursive reader sets the
handle's writer flag, requests an in-place upgrade from the internal
lock, returns exactly the internal lock's answer (true when read
access was never dropped), and the guard holds the write lock
regardless of that answer. -/
theorem upgradeToWriter_spec (upgradeOutcome : Bool) (lock : ScopedLockState)
    (hpre : lock.m_mutex = true ∧ lock.m_writer = false ∧ lock.m_recursive = false) :
    (upgradeToWriter upgradeOutcome lock).1 = upgradeOutcome ∧
    (upgradeToWriter upgradeOutcome lock).2.1.m_writer = true ∧
    (upgradeToWriter upgradeOutcome lock).2.1.m_lock = GuardState.writing ∧
    (upgradeToWriter upgradeOutcome lock).2.2 = [Event.upgradeInternal] := by
  simp [upgradeToWriter]

/-- Witness for C8 at a concrete reader lock with both oracle answers
represented by the failing one. -/
theorem upgradeToWriter_spec_witness :
    ((ScopedLockState.mk GuardState.reading true false false).m_mutex = true ∧
      (ScopedLockState.mk GuardState.reading true false false).m_writer = false ∧
      (ScopedLockState.mk GuardState.reading true false false).m_recursive = false) ∧
    ((upgradeToWriter false (ScopedLockState.mk GuardState.reading true false false)).1 = false ∧
      (upgradeToWriter false (ScopedLockState.mk GuardState.reading true false false)).2.1.m_writer
        = true ∧
      (upgradeToWriter false (ScopedLockState.mk GuardState.reading true false false)).2.1.m_lock
        = GuardState.writing ∧
      (upgradeToWriter false (ScopedLockState.mk GuardState.reading true false false)).2.2
        = [Event.upgradeInternal]) :=
  ⟨⟨rfl, rfl, rfl⟩,
    upgradeToWriter_spec false (ScopedLockState.mk GuardState.reading true false false)
      ⟨rfl, rfl, rfl⟩⟩

/-- Claim C10: `execute` leaves the handle's own fields (guard,
back-pointer, writer flag, recursive flag) unchanged, for any closure
outcome, so the caller still holds the write lock afterwards. -/
theorem execute_preserves_handle {ε : Type} (tid : ThreadId) (mutex : TaskMutexState ε)
    (lock : ScopedLockState) (f : Except ε Unit)
    (hpre : lock.m_mutex = true ∧ lock.m_writer = true ∧ lock.m_recursive = false) :
    (execute tid mutex lock f).lock = lock := by
  cases f <;> rfl

/-- Witness for C10 at a concrete writer lock and succeeding closure. -/
theorem execute_preserves_handle_witness :
    ((ScopedLockState.mk GuardState.writing true true false).m_mutex = true ∧
      (ScopedLockState.mk GuardState.writing true true false).m_writer = true ∧
      (ScopedLockState.mk GuardState.writing true true false).m_recursive = false) ∧
    (execute (ε := Nat) 0 (TaskMutexState.mk none)
        (ScopedLockState.mk GuardState.writing true true false) (Except.ok ())).lock =
      ScopedLockState.mk GuardState.writing true true false :=
  ⟨⟨rfl, rfl, rfl⟩,
    execute_preserves_handle 0 (TaskMutexState.mk none)
      (ScopedLockState.mk GuardState.writing true true false) (Except.ok ())
      ⟨rfl, rfl, rfl⟩⟩

/-- Claim C2: when the initial internal try fails, an execution state
is published and its observer reports the calling thread inside the
arena, `acquireOr` grants a recursive lock for either requested mode:
ownership is recorded, `m_recursive = true`, `m_writer = false` (a
shared-mode grant regardless of the requested mode), the call returns
true, and the internal reader/writer lock is not taken (the guard
stays idle; the only internal-lock event is the failed try). -/
theorem acquireOr_recursive_grant {ε : Type} (tid : ThreadId)
    (mutex : TaskMutexState ε) (write : Bool) (workNotifier : Bool → Bool)
    (es : ExecutionState ε)
    (hE : mutex.m_executionState = some es)
    (hself : es.arenaObserver.containsThisThread tid = true) :
    (acquireOr false tid mutex ScopedLockState.initial write workNotifier).result = true ∧
    (acquireOr false tid mutex ScopedLockState.initial write workNotifier).lock =
      ScopedLockState.mk GuardState.idle true false true ∧
    (acquireOr false tid mutex ScopedLockState.initial write workNotifier).mutex = mutex ∧
    (acquireOr false tid mutex ScopedLockState.initial write workNotifier).trace =
      [Event.tryAcquireInternal write false, Event.msxAcquire, Event.readE,
        Event.msxRelease] := by
  simp [acquireOr, hE, hself, ScopedLockState.initial]

/-- Witness for C2: a donor thread (id 5, registered in the observer)
requesting a write lock gets the recursive shared grant. -/
theorem acquireOr_recursive_grant_witness :
    (TaskMutexState.mk (ε := Nat) (some (ExecutionState.mk [] (ArenaObserver.mk [5])))
        ).m_executionState = some (ExecutionState.mk [] (ArenaObserver.mk [5])) ∧
    (ExecutionState.mk (ε := Nat) [] (ArenaObserver.mk [5])
        ).arenaObserver.containsThisThread 5 = true ∧
    ((acquireOr false 5
        (TaskMutexState.mk (ε := Nat) (some (ExecutionState.mk [] (ArenaObserver.mk [5]))))
        ScopedLockState.initial true (fun _ => false)).result = true ∧
      (acquireOr false 5
        (TaskMutexState.mk (ε := Nat) (some (ExecutionState.mk [] (ArenaObserver.mk [5]))))
        ScopedLockState.initial true (fun _ => false)).lock =
          ScopedLockState.mk GuardState.idle true false true ∧
      (acquireOr false 5
        (TaskMutexState.mk (ε := Nat) (some (ExecutionState.mk [] (ArenaObserver.mk [5]))))
        ScopedLockState.initial true (fun _ => false)).mutex =
          TaskMutexState.mk (some (ExecutionState.mk [] (ArenaObserver.mk [5]))) ∧
      (acquireOr false 5
        (TaskMutexState.mk (ε := Nat) (some (ExecutionState.mk [] (ArenaObserver.mk [5]))))
        ScopedLockState.initial true (fun _ => false)).trace =
        [Event.tryAcquireInternal true false, Event.msxAcquire, Event.readE,
          Event.msxRelease]) :=
  ⟨rfl, rfl,
    acquireOr_recursive_grant 5
      (TaskMutexState.mk (some (ExecutionState.mk [] (ArenaObserver.mk [5]))))
      true (fun _ => false) (ExecutionState.mk [] (ArenaObserver.mk [5])) rfl rfl⟩

/-- Claim C5: `tryAcquire` attempts the internal lock exactly once and
never donates work (no arena entry, no task-group wait); it returns
true exactly when the lock was acquired, including the recursive grant
to a donor thread; and when it returns false the handle and the mutex
are left exactly as before. -/
theorem tryAcquire_once_no_donation {ε : Type} (tryOutcome : Bool) (tid : ThreadId)
    (mutex : TaskMutexState ε) (write : Bool) :
    ((tryAcquire tryOutcome tid mutex ScopedLockState.initial write).trace.countP
        (fun e => e.isInternalTry)) = 1 ∧
    Event.arenaEnter ∉ (tryAcquire tryOutcome tid mutex ScopedLockState.initial write).trace ∧
    Event.waitGroup ∉ (tryAcquire tryOutcome tid mutex ScopedLockState.initial write).trace ∧
    ((tryAcquire tryOutcome tid mutex ScopedLockState.initial write).result =
      (tryAcquire tryOutcome tid mutex ScopedLockState.initial write).lock.m_mutex) ∧
    (∀ es, mutex.m_executionState = some es →
      es.arenaObserver.containsThisThread tid = true → tryOutcome = false →
      (tryAcquire tryOutcome tid mutex ScopedLockState.initial write).result = true ∧
      (tryAcquire tryOutcome tid mutex ScopedLockState.initial write).lock.m_recursive
        = true) ∧
    ((tryAcquire tryOutcome tid mutex ScopedLockState.initial write).result = false →
      (tryAcquire tryOutcome tid mutex ScopedLockState.initial write).lock =
        ScopedLockState.initial ∧
      (tryAcquire tryOutcome tid mutex ScopedLockState.initial write).mutex = mutex) := by
  cases tryOutcome
  · rcases hE : mutex.m_executionState with _ | es
    · simp [tryAcquire, acquireOr, hE, List.countP_cons, Event.isInternalTry,
        ScopedLockState.initial]
    · rcases hc : es.arenaObserver.containsThisThread tid
      · simp [tryAcquire, acquireOr, hE, hc, List.countP_cons, Event.isInternalTry,
          ScopedLockState.initial]
      · simp [tryAcquire, acquireOr, hE, hc, List.countP_cons, Event.isInternalTry,
          ScopedLockState.initial]
  · simp [tryAcquire, acquireOr, List.countP_cons, Event.isInternalTry,
      ScopedLockState.initial]

/-- Witness for C5 at a failed try on a mutex with no published state. -/
theorem tryAcquire_once_no_donation_witness :
    ((tryAcquire (ε := Nat) false 5 (TaskMutexState.mk none) ScopedLockState.initial
        true).trace.countP (fun e => e.isInternalTry)) = 1 ∧
    Event.arenaEnter ∉ (tryAcquire (ε := Nat) false 5 (TaskMutexState.mk none)
      ScopedLockState.initial true).trace ∧
    Event.waitGroup ∉ (tryAcquire (ε := Nat) false 5 (TaskMutexState.mk none)
      ScopedLockState.initial true).trace ∧
    ((tryAcquire (ε := Nat) false 5 (TaskMutexState.mk none) ScopedLockState.initial
        true).result =
      (tryAcquire (ε := Nat) false 5 (TaskMutexState.mk none) ScopedLockState.initial
        true).lock.m_mutex) ∧
    (∀ es, (TaskMutexState.mk (ε := Nat) none).m_executionState = some es →
      es.arenaObserver.containsThisThread 5 = true → false = false →
      (tryAcquire (ε := Nat) false 5 (TaskMutexState.mk none) ScopedLockState.initial
        true).result = true ∧
      (tryAcquire (ε := Nat) false 5 (TaskMutexState.mk none) ScopedLockState.initial
        true).lock.m_recursive = true) ∧
    ((tryAcquire (ε := Nat) false 5 (TaskMutexState.mk none) ScopedLockState.initial
        true).result = false →
      (tryAcquire (ε := Nat) false 5 (TaskMutexState.mk none) ScopedLockState.initial
        true).lock = ScopedLockState.initial ∧
      (tryAcquire (ε := Nat) false 5 (TaskMutexState.mk none) ScopedLockState.initial
        true).mutex = TaskMutexState.mk none) :=
  tryAcquire_once_no_donation false 5 (TaskMutexState.mk none) true

/-- Claim C6: in `acquireOr`, when the initial try fails and the
recursive grant does not apply, `workAvailable` is exactly whether `E`
is non-none, the notifier is invoked with that value, and the call
returns false in all cases; if the notifier declines or no work is
available it returns without donating and leaves the handle and mutex
unchanged, otherwise the shared reference is copied under `Msx`, `Msx`
is released, the task group is drained from inside the arena, and the
call still returns false, leaving the caller to retry. -/
theorem acquireOr_notifier_path {ε : Type} (tid : ThreadId)
    (mutex : TaskMutexState ε) (lock : ScopedLockState) (write : Bool)
    (workNotifier : Bool → Bool)
    (hnorec : ∀ es, mutex.m_executionState = some es →
      es.arenaObserver.containsThisThread tid = false) :
    (Event.notify mutex.m_executionState.isSome ∈
      (acquireOr false tid mutex lock write workNotifier).trace) ∧
    (acquireOr false tid mutex lock write workNotifier).result = false ∧
    ((workNotifier mutex.m_executionState.isSome = false ∨
        mutex.m_executionState.isSome = false) →
      (acquireOr false tid mutex lock write workNotifier).lock = lock ∧
      (acquireOr false tid mutex lock write workNotifier).mutex = mutex ∧
      Event.arenaEnter ∉ (acquireOr false tid mutex lock write workNotifier).trace ∧
      Event.waitGroup ∉ (acquireOr false tid mutex lock write workNotifier).trace) ∧
    ((workNotifier mutex.m_executionState.isSome = true ∧
        mutex.m_executionState.isSome = true) →
      ∃ es, mutex.m_executionState = some es ∧
        (acquireOr false tid mutex lock write workNotifier).lock = lock ∧
        (acquireOr false tid mutex lock write workNotifier).mutex.m_executionState =
          some (ExecutionState.mk []
            ((es.arenaObserver.onSchedulerEntry tid).onSchedulerExit tid)) ∧
        (acquireOr false tid mutex lock write workNotifier).trace =
          [Event.tryAcquireInternal write false, Event.msxAcquire, Event.readE,
            Event.readE, Event.notify true, Event.readE, Event.msxRelease,
            Event.arenaEnter, Event.waitGroup, Event.arenaExit]) := by
  rcases hE : mutex.m_executionState with _ | es
  · simp [acquireOr, hE]
  · have hc := hnorec es hE
    rcases hw : workNotifier true
    · simp [acquireOr, hE, hc, hw]
    · simp [acquireOr, hE, hc, hw]

/-- Witness for C6: a non-donor thread (id 7, not in the observer set)
with work available and an accepting notifier still fails to acquire. -/
theorem acquireOr_notifier_path_witness :
    (∀ es, (TaskMutexState.mk (ε := Nat)
        (some (ExecutionState.mk [] (ArenaObserver.mk [3])))).m_executionState = some es →
      es.arenaObserver.containsThisThread 7 = false) ∧
    (acquireOr false 7
      (TaskMutexState.mk (ε := Nat) (some (ExecutionState.mk [] (ArenaObserver.mk [3]))))
      ScopedLockState.initial false (fun _ => true)).result = false :=
  ⟨by intro es h; cases h; rfl,
    (acquireOr_notifier_path 7
      (TaskMutexState.mk (some (ExecutionState.mk [] (ArenaObserver.mk [3]))))
      ScopedLockState.initial false (fun _ => true)
      (by intro es h; cases h; rfl)).2.1⟩

/-- Claim C3: on a writer-held, non-recursive handle with no published
state, `execute` with a succeeding closure performs exactly, in order:
acquire `Msx`, the asserting read of `E`, the installing write of the
fresh execution state, release `Msx`, the re-read of the slot and
entry into its arena, then inside the arena the separate `spawnTask`
and `waitGroup` calls (each preceded by a re-read of the slot), arena
exit, and finally acquire `Msx`, the clearing write of `E`, release
`Msx`; afterwards the slot is none and the task group is empty. -/
theorem execute_success_steps {ε : Type} (tid : ThreadId)
    (mutex : TaskMutexState ε) (lock : ScopedLockState)
    (hlock : lock.m_mutex = true ∧ lock.m_writer = true ∧ lock.m_recursive = false)
    (hE : mutex.m_executionState = none) :
    (execute tid mutex lock (Except.ok ())).trace =
      [Event.msxAcquire, Event.readE, Event.writeE, Event.msxRelease,
        Event.readE, Event.arenaEnter, Event.readE, Event.spawnTask, Event.readE,
        Event.waitGroup, Event.arenaExit,
        Event.msxAcquire, Event.writeE, Event.msxRelease] ∧
    (execute tid mutex lock (Except.ok ())).result = Except.ok () ∧
    (execute tid mutex lock (Except.ok ())).mutex.m_executionState = none ∧
    (execute tid mutex lock (Except.ok ())).esFinal.taskGroup = [] :=
  ⟨rfl, rfl, rfl, rfl⟩

/-- Witness for C3 at a concrete writer lock on an idle mutex. -/
theorem execute_success_steps_witness :
    ((ScopedLockState.mk GuardState.writing true true false).m_mutex = true ∧
      (ScopedLockState.mk GuardState.writing true true false).m_writer = true ∧
      (ScopedLockState.mk GuardState.writing true true false).m_recursive = false) ∧
    (TaskMutexState.mk (ε := Nat) none).m_executionState = none ∧
    (execute (ε := Nat) 0 (TaskMutexState.mk none)
        (ScopedLockState.mk GuardState.writing true true false)
        (Except.ok ())).mutex.m_executionState = none :=
  ⟨⟨rfl, rfl, rfl⟩, rfl,
    (execute_success_steps 0 (TaskMutexState.mk none)
      (ScopedLockState.mk GuardState.writing true true false)
      ⟨rfl, rfl, rfl⟩ rfl).2.2.1⟩

/-- Claim C1 (behaviour at the failing input): with a writer-held
handle and no published state, a closure that raises makes `execute`
propagate the error after the task group has drained, and the internal
writer lock is still released when the handle's scope exits; but the
execution-state slot is not cleared back to none — the unwinding skips
the final clearing statements and leaves the drained state installed
on the mutex. -/
theorem execute_exception_leaves_E_installed :
    (execute (ε := Nat) 0 (TaskMutexState.mk none)
        (ScopedLockState.mk GuardState.writing true true false) (Except.error 7)).result =
      Except.error 7 ∧
    (execute (ε := Nat) 0 (TaskMutexState.mk none)
        (ScopedLockState.mk GuardState.writing true true false)
        (Except.error 7)).esFinal.taskGroup = [] ∧
    (execute (ε := Nat) 0 (TaskMutexState.mk none)
        (ScopedLockState.mk GuardState.writing true true false)
        (Except.error 7)).mutex.m_executionState ≠ none ∧
    (scopedLockDtor (execute (ε := Nat) 0 (TaskMutexState.mk none)
        (ScopedLockState.mk GuardState.writing true true false) (Except.error 7)).lock).2 =
      [Event.releaseInternal] ∧
    (scopedLockDtor (execute (ε := Nat) 0 (TaskMutexState.mk none)
        (ScopedLockState.mk GuardState.writing true true false)
        (Except.error 7)).lock).1.m_lock = GuardState.idle :=
  ⟨rfl, rfl, by decide, rfl, rfl⟩

/-- Claim C4 counterexample: the trace of a concrete `execute` call
contains reads of the slot `E` performed while `Msx` is not held —
the member is re-read to enter the arena and again inside the arena
closure — so it is false that every access to `E` by `execute` occurs
while `Msx` is held. -/
theorem execute_reads_E_outside_msx :
    msxRespected (execute (ε := Nat) 0 (TaskMutexState.mk none)
      (ScopedLockState.mk GuardState.writing true true false) (Except.ok ())).trace false
      = false := by
  decide

/-- A single `acquireOr` call accesses `E` only while `Msx` is held,
and leaves `Msx` released. -/
theorem acquireOr_msx_discipline {ε : Type} (tryOutcome : Bool) (tid : ThreadId)
    (mutex : TaskMutexState ε) (lock : ScopedLockState) (write : Bool)
    (workNotifier : Bool → Bool) :
    msxRespected (acquireOr tryOutcome tid mutex lock write workNotifier).trace false
      = true ∧
    msxHeldAfter (acquireOr tryOutcome tid mutex lock write workNotifier).trace false
      = false := by
  cases tryOutcome
  · rcases hE : mutex.m_executionState with _ | es
    · simp [acquireOr, hE, msxRespected, msxHeldAfter]
    · rcases hc : es.arenaObserver.containsThisThread tid
      · rcases hw : workNotifier true
        · simp [acquireOr, hE, hc, hw, msxRespected, msxHeldAfter]
        · simp [acquireOr, hE, hc, hw, msxRespected, msxHeldAfter]
      · simp [acquireOr, hE, hc, msxRespected, msxHeldAfter]
  · simp [acquireOr, msxRespected, msxHeldAfter]

/-- Splitting lemma: a concatenated trace respects the discipline iff
the first part does from the initial state and the second from the
holding state the first part leaves behind. -/
theorem msxRespected_append (t1 t2 : List Event) (b : Bool) :
    msxRespected (t1 ++ t2) b =
      (msxRespected t1 b && msxRespected t2 (msxHeldAfter t1 b)) := by
  induction t1 generalizing b with
  | nil => simp [msxRespected, msxHeldAfter]
  | cons e rest ih =>
    cases e <;> simp [msxRespected, msxHeldAfter, ih, Bool.and_assoc]

/-- Every iteration of the `acquire` loop accesses `E` only under
`Msx`. -/
theorem acquire_msx_discipline {ε : Type} (oracles : List Bool) (tid : ThreadId)
    (mutex : TaskMutexState ε) (lock : ScopedLockState) (write acceptWork : Bool) :
    msxRespected (acquire oracles tid mutex lock write acceptWork).trace false = true := by
  induction oracles generalizing mutex lock with
  | nil =>
    exact (acquireOr_msx_discipline true tid mutex lock write (fun _ => acceptWork)).1
  | cons t ts ih =>
    show msxRespected (acquire (t :: ts) tid mutex lock write acceptWork).trace false = true
    rw [acquire]
    have h1 := acquireOr_msx_discipline t tid mutex lock write (fun _ => acceptWork)
    cases hres : (acquireOr t tid mutex lock write (fun _ => acceptWork)).result
    · simp [hres, msxRespected_append, h1.1, h1.2, ih]
    · simpa [hres] using h1.1

/-- Claim C4 (amended): every operation mutates `E` only while holding
`Msx`, and `acquire`, `tryAcquire` and `acquireOr` also read `E` only
under `Msx`, using after its release only the shared reference copied
under it; `execute`, however, re-reads the slot directly after
releasing `Msx` (to enter the arena and from inside the arena
closure), so of `execute`'s accesses only the mutations respect the
discipline. -/
theorem msx_access_discipline (ε : Type) :
    (∀ (tryOutcome : Bool) (tid : ThreadId) (mutex : TaskMutexState ε)
        (lock : ScopedLockState) (write : Bool) (workNotifier : Bool → Bool),
      msxRespected (acquireOr tryOutcome tid mutex lock write workNotifier).trace false
        = true) ∧
    (∀ (tryOutcome : Bool) (tid : ThreadId) (mutex : TaskMutexState ε)
        (lock : ScopedLockState) (write : Bool),
      msxRespected (tryAcquire tryOutcome tid mutex lock write).trace false = true) ∧
    (∀ (oracles : List Bool) (tid : ThreadId) (mutex : TaskMutexState ε)
        (lock : ScopedLockState) (write acceptWork : Bool),
      msxRespected (acquire oracles tid mutex lock write acceptWork).trace false = true) ∧
    (∀ (tid : ThreadId) (mutex : TaskMutexState ε) (lock : ScopedLockState)
        (f : Except ε Unit),
      msxWritesRespected (execute tid mutex lock f).trace false = true) := by
  refine ⟨?_, ?_, ?_, ?_⟩
  · intro tryOutcome tid mutex lock write workNotifier
    exact (acquireOr_msx_discipline tryOutcome tid mutex lock write workNotifier).1
  · intro tryOutcome tid mutex lock write
    exact (acquireOr_msx_discipline tryOutcome tid mutex lock write (fun _ => false)).1
  · intro oracles tid mutex lock write acceptWork
    exact acquire_msx_discipline oracles tid mutex lock write acceptWork
  · intro tid mutex lock f
    cases f <;> rfl

end IECorePreview
